import Mathlib

/-!
Shallow embedding of `src/app.js` (Arkanuy/whatsapp-api): a WhatsApp HTTP
gateway.  The mutable module state is the pair of variables `isClientReady`
and `clientState` (strings, exactly as in the JS source).  Lifecycle event
handlers, the two grace-timer callbacks, the phone-number helpers and the
three HTTP route handlers are translated one-to-one; `setTimeout` callbacks
are modelled as explicit timer-fire events guarded by pending-timer counters.
-/

/-- The mutable session variables of `app.js`:
`let isClientReady = false; let clientState = 'INITIALIZING';` (lines 11-12). -/
structure AppState where
  isClientReady : Bool
  clientState : String
deriving DecidableEq, Repr

/-- Initial values of the two module variables (lines 11-12). -/
def initialAppState : AppState := ⟨false, "INITIALIZING"⟩

/-- `b` is an initial segment of `l` (character-list analogue used to model
JS `String.prototype.startsWith` / `String.prototype.includes`). -/
def listStarts (b l : List Char) : Bool :=
  match b, l with
  | [], _ => true
  | _ :: _, [] => false
  | a :: bs, c :: ls => a == c && listStarts bs ls

/-- `b` occurs as a contiguous sublist of `l`; models JS `includes`. -/
def listHasSub (b l : List Char) : Bool :=
  match l with
  | [] => b.isEmpty
  | _ :: ls => listStarts b l || listHasSub b ls

/-- JS `hay.includes(needle)`. -/
def strIncludes (hay needle : String) : Bool :=
  listHasSub needle.toList hay.toList

/-- JS `number.replace(/\D/g, '')` viewed as its character list: keep the
decimal digits, drop everything else (line 110 / line 115). -/
def cleanDigits (number : String) : List Char :=
  number.toList.filter Char.isDigit

/-- `isValidPhoneNumber` (lines 109-112): the stripped digit count must lie
in `[10, 15]`. -/
def isValidPhoneNumber (number : String) : Bool :=
  decide (10 ≤ (cleanDigits number).length ∧ (cleanDigits number).length ≤ 15)

/-- The digit-portion computation of `formatPhoneNumber` (lines 114-124):
first `if (cleanNumber.startsWith('0')) cleanNumber = '62' + cleanNumber.substring(1)`,
then `if (!cleanNumber.startsWith('62') && cleanNumber.length > 10) cleanNumber = '62' + cleanNumber`. -/
def formatDigits (c0 : List Char) : List Char :=
  let c1 := if c0.take 1 = ['0'] then '6' :: '2' :: c0.drop 1 else c0
  let c2 := if c1.take 2 ≠ ['6', '2'] ∧ c1.length > 10 then '6' :: '2' :: c1 else c1
  c2

/-- `formatPhoneNumber` (lines 114-126): strip non-digits, adjust the prefix,
append the domain suffix (`` `${cleanNumber}@c.us` ``). -/
def formatPhoneNumber (number : String) : String :=
  String.mk (formatDigits (cleanDigits number)) ++ "@c.us"

/-- `const chatId = number.includes('@c.us') ? number : formatPhoneNumber(number);`
(line 154). -/
def toChatId (number : String) : String :=
  if strIncludes number "@c.us" = true then number else formatPhoneNumber number

/-- `client.on('qr')` handler (lines 56-61). -/
def onQr (_ : AppState) : AppState := ⟨false, "QR_GENERATED"⟩

/-- `client.on('ready')` handler (lines 63-67). -/
def onReady (_ : AppState) : AppState := ⟨true, "CONNECTED"⟩

/-- The synchronous part of `client.on('authenticated')` (line 71):
sets `clientState` only, leaves `isClientReady` unchanged, and arms a 5 s
timer (modelled separately as `authTimerCb`). -/
def onAuthenticated (s : AppState) : AppState := ⟨s.isClientReady, "AUTHENTICATED"⟩

/-- The 5 s `setTimeout` callback armed by the `authenticated` handler
(lines 72-78): promote only if `clientState` is still `'AUTHENTICATED'`. -/
def authTimerCb (s : AppState) : AppState :=
  if s.clientState = "AUTHENTICATED" then ⟨true, "CONNECTED"⟩ else s

/-- `client.on('auth_failure')` handler (lines 81-85). -/
def onAuthFailure (_ : AppState) : AppState := ⟨false, "AUTH_FAILURE"⟩

/-- `client.on('disconnected')` handler (lines 87-91). -/
def onDisconnected (_ : AppState) : AppState := ⟨false, "DISCONNECTED"⟩

/-- The synchronous part of `client.on('loading_screen')` (line 95): sets
`clientState = 'LOADING'`, leaves `isClientReady` unchanged; at
`percent === 100` it arms a 3 s timer (modelled separately as `loadTimerCb`). -/
def onLoadingScreen (s : AppState) (_percent : Nat) : AppState :=
  ⟨s.isClientReady, "LOADING"⟩

/-- The 3 s `setTimeout` callback armed by `loading_screen` at 100 %
(lines 97-103): promote whenever `!isClientReady`. -/
def loadTimerCb (s : AppState) : AppState :=
  if s.isClientReady = true then s else ⟨true, "CONNECTED"⟩

/-- The state mutation of `GET /restart` (lines 238-239). -/
def onRestart (_ : AppState) : AppState := ⟨false, "RESTARTING"⟩

/-- Result of `client.sendMessage`: either a sent message id or a thrown
error carrying `error.message`. -/
inductive SendResult where
  | ok (messageId : String)
  | err (msg : String)
deriving DecidableEq, Repr

/-- The response classification of `POST /send-message` (lines 130-200). -/
inductive SendOutcome where
  | missingParams
  | invalidNumber
  | notReady (st : String)
  | sent (toAddr : String) (messageId : String)
  | chatNotFound
  | notRegistered
  | sessionError
  | unknown (errMsg : String)
deriving DecidableEq, Repr

/-- HTTP status code attached to each `POST /send-message` outcome. -/
def httpStatus : SendOutcome → Nat
  | .missingParams => 400
  | .invalidNumber => 400
  | .notReady _ => 503
  | .sent _ _ => 200
  | .chatNotFound => 404
  | .notRegistered => 404
  | .sessionError => 503
  | .unknown _ => 500

/-- The `POST /send-message` handler after authentication (lines 130-200),
as a function of the current state, the request parameters and the result
the transport would return if invoked.  Produces the outcome, the new state
and whether `client.sendMessage` was invoked. -/
def sendMessageHandler (s : AppState) (number message : String)
    (transport : SendResult) : SendOutcome × AppState × Bool :=
  if number = "" ∨ message = "" then
    (.missingParams, s, false)
  else if isValidPhoneNumber number = false then
    (.invalidNumber, s, false)
  else if s.isClientReady = false ∨
      (s.clientState ≠ "CONNECTED" ∧ s.clientState ≠ "AUTHENTICATED") then
    (.notReady s.clientState, s, false)
  else
    let chatId := toChatId number
    match transport with
    | .ok mid => (.sent chatId mid, s, true)
    | .err m =>
      if strIncludes m "Chat not found" = true then
        (.chatNotFound, s, true)
      else if strIncludes m "phone number is not registered" = true then
        (.notRegistered, s, true)
      else if strIncludes m "Evaluation failed" = true then
        (.sessionError, ⟨false, "ERROR"⟩, true)
      else
        (.unknown m, s, true)

/-- The JSON body reported by `GET /status` (lines 216-222). -/
structure StatusReport where
  clientReady : Bool
  clientState : String
deriving DecidableEq, Repr

/-- The `GET /status` handler (lines 202-234): when `isClientReady`, query
`client.getState()` (`some st` on success, `none` when it throws); on
failure report `'ERROR'` and clear `isClientReady`.  Returns the report and
the new state. -/
def statusHandler (s : AppState) (getStateResult : Option String) :
    StatusReport × AppState :=
  if s.isClientReady = true then
    match getStateResult with
    | some st => (⟨s.isClientReady, st⟩, s)
    | none => (⟨false, "ERROR"⟩, ⟨false, s.clientState⟩)
  else
    (⟨s.isClientReady, s.clientState⟩, s)

/-- Whole-system state: the two module variables plus the number of pending
(armed, not yet fired) grace timers of each kind.  JS timers are never
cancelled by later events, so an armed timer stays pending until it fires. -/
structure Sys where
  app : AppState
  authPending : Nat
  loadPending : Nat
deriving DecidableEq, Repr

/-- Initial system state at process start. -/
def initialSys : Sys := ⟨initialAppState, 0, 0⟩

/-- The events that mutate the module state: transport lifecycle events,
grace-timer firings, and the API requests. -/
inductive Event where
  | qr
  | ready
  | authenticated
  | authFire
  | authFailure
  | disconnected
  | loading (percent : Nat)
  | loadFire
  | send (number message : String) (transport : SendResult)
  | status (getStateResult : Option String)
  | restart
deriving DecidableEq, Repr

/-- One step of the system: each event is handled exactly as in `app.js`.
`authenticated` arms a 5 s timer; `loading p` arms a 3 s timer when
`p = 100`; a fire event runs the corresponding callback when such a timer
is pending, and is a no-op otherwise. -/
def sysStep (s : Sys) : Event → Sys
  | .qr => ⟨onQr s.app, s.authPending, s.loadPending⟩
  | .ready => ⟨onReady s.app, s.authPending, s.loadPending⟩
  | .authenticated => ⟨onAuthenticated s.app, s.authPending + 1, s.loadPending⟩
  | .authFire =>
    if 0 < s.authPending then ⟨authTimerCb s.app, s.authPending - 1, s.loadPending⟩
    else s
  | .authFailure => ⟨onAuthFailure s.app, s.authPending, s.loadPending⟩
  | .disconnected => ⟨onDisconnected s.app, s.authPending, s.loadPending⟩
  | .loading p =>
    ⟨onLoadingScreen s.app p, s.authPending,
      if p = 100 then s.loadPending + 1 else s.loadPending⟩
  | .loadFire =>
    if 0 < s.loadPending then ⟨loadTimerCb s.app, s.authPending, s.loadPending - 1⟩
    else s
  | .send n m t => ⟨(sendMessageHandler s.app n m t).2.1, s.authPending, s.loadPending⟩
  | .status r => ⟨(statusHandler s.app r).2, s.authPending, s.loadPending⟩
  | .restart => ⟨onRestart s.app, s.authPending, s.loadPending⟩

/-- Run a sequence of events from process start. -/
def sysRun (es : List Event) : Sys :=
  es.foldl sysStep initialSys

/-- The intended readiness invariant, adjusted to what the code maintains:
whenever `isClientReady` is set, the state is one of the three values below. -/
def ReadyInvariant (s : AppState) : Prop :=
  s.isClientReady = true →
    s.clientState = "AUTHENTICATED" ∨ s.clientState = "CONNECTED" ∨
    s.clientState = "LOADING"

lemma strAppend_mk (l m : List Char) :
    String.mk l ++ String.mk m = String.mk (l ++ m) := rfl

lemma formatPhoneNumber_toList (raw : String) :
    (formatPhoneNumber raw).toList =
      formatDigits (cleanDigits raw) ++ ['@', 'c', '.', 'u', 's'] := by
  rw [formatPhoneNumber,
    show ("@c.us" : String) = String.mk ['@', 'c', '.', 'u', 's'] from rfl,
    strAppend_mk]
  rfl

lemma listHasSub_append (b l t : List Char) (hb : listHasSub b t = true) :
    listHasSub b (l ++ t) = true := by
  induction l with
  | nil => simpa using hb
  | cons a l ih => simp [listHasSub, ih]

lemma formatPhoneNumber_includes (raw : String) :
    strIncludes (formatPhoneNumber raw) "@c.us" = true := by
  unfold strIncludes
  rw [formatPhoneNumber_toList]
  exact listHasSub_append _ _ _ (by decide)

lemma sendMessageHandler_state (s : AppState) (n m : String) (t : SendResult) :
    (sendMessageHandler s n m t).2.1 = s ∨
    (sendMessageHandler s n m t).2.1 = ⟨false, "ERROR"⟩ := by
  unfold sendMessageHandler
  split
  · exact Or.inl rfl
  split
  · exact Or.inl rfl
  split
  · exact Or.inl rfl
  cases t with
  | ok mid => exact Or.inl rfl
  | err msg =>
    simp only
    split
    · exact Or.inl rfl
    split
    · exact Or.inl rfl
    split
    · exact Or.inr rfl
    · exact Or.inl rfl

lemma statusHandler_state (s : AppState) (r : Option String) :
    (statusHandler s r).2 = ⟨s.isClientReady && r.isSome, s.clientState⟩ := by
  obtain ⟨rd, st⟩ := s
  cases rd <;> cases r <;> simp [statusHandler]

lemma formatDigits_length (c : List Char) :
    (formatDigits c).length = c.length ∨
    (formatDigits c).length = c.length + 1 ∨
    (formatDigits c).length = c.length + 2 := by
  simp only [formatDigits]
  by_cases h0 : c.take 1 = ['0']
  · have hne : 1 ≤ c.length := by
      cases c with
      | nil => exact absurd h0 (by decide)
      | cons a l => simp
    rw [if_pos h0, if_neg (by simp [List.take])]
    right; left
    simp only [List.length_cons, List.length_drop]
    omega
  · rw [if_neg h0]
    by_cases h2 : c.take 2 ≠ ['6', '2'] ∧ c.length > 10
    · rw [if_pos h2]
      right; right
      simp only [List.length_cons]
    · rw [if_neg h2]
      exact Or.inl rfl

lemma readyInvariant_step (s : Sys) (e : Event) (h : ReadyInvariant s.app) :
    ReadyInvariant (sysStep s e).app := by
  cases e with
  | qr => simp [sysStep, onQr, ReadyInvariant]
  | ready => simp [sysStep, onReady, ReadyInvariant]
  | authenticated => simp [sysStep, onAuthenticated, ReadyInvariant]
  | authFire =>
    simp only [sysStep]
    split
    · unfold authTimerCb
      split
      · simp [ReadyInvariant]
      · exact h
    · exact h
  | authFailure => simp [sysStep, onAuthFailure, ReadyInvariant]
  | disconnected => simp [sysStep, onDisconnected, ReadyInvariant]
  | loading p => simp [sysStep, onLoadingScreen, ReadyInvariant]
  | loadFire =>
    simp only [sysStep]
    split
    · unfold loadTimerCb
      split
      · exact h
      · simp [ReadyInvariant]
    · exact h
  | send n m t =>
    simp only [sysStep]
    rcases sendMessageHandler_state s.app n m t with e | e <;> rw [e]
    · exact h
    · simp [ReadyInvariant]
  | status r =>
    simp only [sysStep]
    rw [statusHandler_state]
    intro hr
    simp only [Bool.and_eq_true] at hr
    exact h hr.1
  | restart => simp [sysStep, onRestart, ReadyInvariant]

lemma readyInvariant_run (es : List Event) (s : Sys) (h : ReadyInvariant s.app) :
    ReadyInvariant (es.foldl sysStep s).app := by
  induction es generalizing s with
  | nil => exact h
  | cons e t ih => exact ih _ (readyInvariant_step s e h)

/-- C1: for every POST /send-message request that passes authentication and
parameter/number validation, if `isClientReady` is false or `clientState` is
neither CONNECTED nor AUTHENTICATED, the request is rejected with the
not-ready outcome (HTTP 503) and the transport send is not invoked. -/
theorem c1_readiness_gate (s : AppState) (n m : String) (t : SendResult)
    (hn : n ≠ "") (hm : m ≠ "") (hv : isValidPhoneNumber n = true)
    (hgate : s.isClientReady = false ∨
      (s.clientState ≠ "CONNECTED" ∧ s.clientState ≠ "AUTHENTICATED")) :
    sendMessageHandler s n m t = (.notReady s.clientState, s, false) ∧
    httpStatus (sendMessageHandler s n m t).1 = 503 := by
  have h1 : ¬(n = "" ∨ m = "") := by simp [hn, hm]
  have h2 : ¬(isValidPhoneNumber n = false) := by simp [hv]
  have e : sendMessageHandler s n m t = (.notReady s.clientState, s, false) := by
    unfold sendMessageHandler
    rw [if_neg h1, if_neg h2, if_pos hgate]
  exact ⟨e, by rw [e]; rfl⟩

theorem c1_readiness_gate_witness :
    sendMessageHandler ⟨false, "DISCONNECTED"⟩ "081234567890" "hi" (.ok "id") =
      (.notReady "DISCONNECTED", ⟨false, "DISCONNECTED"⟩, false) ∧
    httpStatus (sendMessageHandler ⟨false, "DISCONNECTED"⟩ "081234567890" "hi"
      (.ok "id")).1 = 503 :=
  c1_readiness_gate ⟨false, "DISCONNECTED"⟩ "081234567890" "hi" (.ok "id")
    (by decide) (by decide) (by decide) (Or.inl rfl)

/-- C2 counterexample: arm the 3-second loading grace timer
(loading-progress 100), let a disconnected event arrive strictly before the
timer fires (so the state is DISCONNECTED and the timer is still pending),
then fire it: the firing sets SessionState to CONNECTED and ReadyFlag to
true, contradicting the claim. -/
theorem c2_counterexample :
    (sysRun [Event.loading 100, Event.disconnected]).loadPending = 1 ∧
    (sysRun [Event.loading 100, Event.disconnected]).app =
      ⟨false, "DISCONNECTED"⟩ ∧
    sysRun [Event.loading 100, Event.disconnected, Event.loadFire] =
      ⟨⟨true, "CONNECTED"⟩, 0, 0⟩ := by decide

/-- C2 amended: the claimed race-freedom holds for the 5-second
authenticated-grace timer — after a disconnected event its firing leaves the
session variables unchanged, because it re-checks that the state is still
AUTHENTICATED.  It fails for the 3-second loading timer, whose fire-time
check is only that ReadyFlag is false: a pending 3-second timer that fires
right after a disconnected event sets SessionState to CONNECTED and
ReadyFlag to true. -/
theorem c2_amended_grace_race (s : Sys) :
    (sysStep (sysStep s Event.disconnected) Event.authFire).app =
      (sysStep s Event.disconnected).app ∧
    (0 < s.loadPending →
      (sysStep (sysStep s Event.disconnected) Event.loadFire).app =
        ⟨true, "CONNECTED"⟩) := by
  constructor
  · simp only [sysStep, onDisconnected]
    split
    · simp [authTimerCb]
    · rfl
  · intro h
    simp only [sysStep, onDisconnected]
    rw [if_pos h]
    simp [loadTimerCb]

theorem c2_amended_grace_race_witness :
    (sysStep (sysStep ⟨⟨false, "LOADING"⟩, 0, 1⟩ Event.disconnected)
        Event.authFire).app =
      (sysStep ⟨⟨false, "LOADING"⟩, 0, 1⟩ Event.disconnected).app ∧
    (sysStep (sysStep ⟨⟨false, "LOADING"⟩, 0, 1⟩ Event.disconnected)
        Event.loadFire).app = ⟨true, "CONNECTED"⟩ :=
  ⟨(c2_amended_grace_race ⟨⟨false, "LOADING"⟩, 0, 1⟩).1,
   (c2_amended_grace_race ⟨⟨false, "LOADING"⟩, 0, 1⟩).2 (by decide)⟩

/-- C3 counterexample: the trace ready-event then loading-progress 50 is
reachable and leaves ReadyFlag true while SessionState is LOADING, which is
neither AUTHENTICATED nor CONNECTED — the loading_screen handler changes the
state but leaves `isClientReady` untouched. -/
theorem c3_counterexample :
    (sysRun [Event.ready, Event.loading 50]).app.isClientReady = true ∧
    (sysRun [Event.ready, Event.loading 50]).app.clientState = "LOADING" ∧
    ("LOADING" : String) ≠ "AUTHENTICATED" ∧
    ("LOADING" : String) ≠ "CONNECTED" := by decide

/-- C3 amended: in every reachable state, ReadyFlag = true implies
SessionState is AUTHENTICATED, CONNECTED or LOADING (LOADING must be
admitted because the loading_screen handler overwrites the state without
clearing the ready flag); every operation preserves this weaker
implication. -/
theorem c3_amended_ready_invariant (es : List Event)
    (h : (sysRun es).app.isClientReady = true) :
    (sysRun es).app.clientState = "AUTHENTICATED" ∨
    (sysRun es).app.clientState = "CONNECTED" ∨
    (sysRun es).app.clientState = "LOADING" := by
  have hinv := readyInvariant_run es initialSys
    (by simp [ReadyInvariant, initialSys, initialAppState])
  simp only [ReadyInvariant] at hinv
  exact hinv h

theorem c3_amended_ready_invariant_witness :
    (sysRun [Event.ready]).app.isClientReady = true ∧
    ((sysRun [Event.ready]).app.clientState = "AUTHENTICATED" ∨
     (sysRun [Event.ready]).app.clientState = "CONNECTED" ∨
     (sysRun [Event.ready]).app.clientState = "LOADING") :=
  ⟨rfl, c3_amended_ready_invariant [Event.ready] rfl⟩

/-- C4 counterexample: a transport failure whose message contains
"Evaluation failed" but also contains "Chat not found" is classified by the
earlier `Chat not found` branch: the outcome is chat-not-found (HTTP 404),
not the session-error outcome, and the state is left unchanged rather than
forced to ERROR. -/
theorem c4_counterexample :
    strIncludes "Chat not found: Evaluation failed" "Evaluation failed" =
      true ∧
    sendMessageHandler ⟨true, "CONNECTED"⟩ "081234567890" "hi"
        (.err "Chat not found: Evaluation failed") =
      (.chatNotFound, ⟨true, "CONNECTED"⟩, true) ∧
    SendOutcome.chatNotFound ≠ SendOutcome.sessionError ∧
    httpStatus SendOutcome.chatNotFound = 404 := by decide

/-- C4 amended: for a dispatch that passes the parameter, validation and
readiness gates and whose transport send fails with a message containing
"Evaluation failed" but containing neither "Chat not found" nor "phone
number is not registered", the outcome is the session-error outcome
(HTTP 503) and the state is forced to ERROR with ReadyFlag cleared. -/
theorem c4_amended_evaluation_failed (s : AppState) (n m emsg : String)
    (hn : n ≠ "") (hm : m ≠ "") (hv : isValidPhoneNumber n = true)
    (hready : s.isClientReady = true)
    (hstate : s.clientState = "CONNECTED" ∨ s.clientState = "AUTHENTICATED")
    (h1 : strIncludes emsg "Chat not found" = false)
    (h2 : strIncludes emsg "phone number is not registered" = false)
    (h3 : strIncludes emsg "Evaluation failed" = true) :
    sendMessageHandler s n m (.err emsg) =
      (.sessionError, ⟨false, "ERROR"⟩, true) ∧
    httpStatus SendOutcome.sessionError = 503 ∧
    (AppState.mk false "ERROR").isClientReady = false := by
  have ha : ¬(n = "" ∨ m = "") := by simp [hn, hm]
  have hb : ¬(isValidPhoneNumber n = false) := by simp [hv]
  have hc : ¬(s.isClientReady = false ∨
      (s.clientState ≠ "CONNECTED" ∧ s.clientState ≠ "AUTHENTICATED")) := by
    rcases hstate with h | h <;> simp [hready, h]
  refine ⟨?_, rfl, rfl⟩
  unfold sendMessageHandler
  rw [if_neg ha, if_neg hb, if_neg hc]
  simp only
  rw [if_neg (by simp [h1]), if_neg (by simp [h2]), if_pos h3]

theorem c4_amended_evaluation_failed_witness :
    sendMessageHandler ⟨true, "CONNECTED"⟩ "081234567890" "hi"
        (.err "Evaluation failed: something went wrong") =
      (.sessionError, ⟨false, "ERROR"⟩, true) ∧
    httpStatus SendOutcome.sessionError = 503 ∧
    (AppState.mk false "ERROR").isClientReady = false :=
  c4_amended_evaluation_failed ⟨true, "CONNECTED"⟩ "081234567890" "hi"
    "Evaluation failed: something went wrong" (by decide) (by decide)
    (by decide) rfl (Or.inl rfl) (by decide) (by decide) (by decide)

/-- C5 counterexample: with ReadyFlag true and last-known state CONNECTED,
a failing live-state query makes GET /status report ERROR instead of the
last-known CONNECTED, and it mutates ReadyFlag from true to false — so the
status query is not mutation-free and does not fall back to the last-known
state. -/
theorem c5_counterexample :
    (statusHandler ⟨true, "CONNECTED"⟩ none).1.clientState = "ERROR" ∧
    ("ERROR" : String) ≠ "CONNECTED" ∧
    (AppState.mk true "CONNECTED").isClientReady = true ∧
    (statusHandler ⟨true, "CONNECTED"⟩ none).2.isClientReady = false := by
  decide

/-- C5 amended: GET /status never mutates SessionState (the stored
`clientState`); it queries the transport only when ReadyFlag is true, and
the new ReadyFlag equals the old one conjoined with the query having
succeeded — i.e. the only mutation is clearing ReadyFlag when the
live-state query fails; on such a failure the report carries ERROR rather
than the last-known state, and when ReadyFlag is false the last-known state
is reported without querying. -/
theorem c5_amended_status_frame (s : AppState) (r : Option String) :
    (statusHandler s r).2.clientState = s.clientState ∧
    (statusHandler s r).2.isClientReady = (s.isClientReady && r.isSome) ∧
    (statusHandler s r).1 =
      ⟨s.isClientReady && r.isSome,
        if s.isClientReady = true then r.getD "ERROR" else s.clientState⟩ := by
  obtain ⟨rd, st⟩ := s
  cases rd <;> cases r <;> simp [statusHandler]

/-- C6: formatPhoneNumber replaces a leading 0 of the stripped digit string
by 62; otherwise, when the digits neither start with 62 nor have length at
most 10, 62 is prepended; the domain suffix is appended; and in particular
"081234567890" normalizes to "6281234567890@c.us". -/
theorem c6_format_rules (raw : String) :
    ((cleanDigits raw).take 1 = ['0'] →
      (formatPhoneNumber raw).toList =
        '6' :: '2' :: ((cleanDigits raw).drop 1 ++ ['@', 'c', '.', 'u', 's'])) ∧
    ((cleanDigits raw).take 1 ≠ ['0'] →
      (cleanDigits raw).take 2 ≠ ['6', '2'] →
      (cleanDigits raw).length > 10 →
      (formatPhoneNumber raw).toList =
        '6' :: '2' :: (cleanDigits raw ++ ['@', 'c', '.', 'u', 's'])) ∧
    formatPhoneNumber "081234567890" = "6281234567890@c.us" := by
  refine ⟨?_, ?_, by decide⟩
  · intro h0
    rw [formatPhoneNumber_toList]
    simp only [formatDigits]
    rw [if_pos h0, if_neg (by simp [List.take])]
    simp
  · intro h0 h62 hlen
    rw [formatPhoneNumber_toList]
    simp only [formatDigits]
    rw [if_neg h0, if_pos ⟨h62, hlen⟩]
    simp

theorem c6_format_rules_witness :
    (formatPhoneNumber "081234567890").toList =
      '6' :: '2' :: ((cleanDigits "081234567890").drop 1 ++
        ['@', 'c', '.', 'u', 's']) ∧
    formatPhoneNumber "081234567890" = "6281234567890@c.us" :=
  ⟨(c6_format_rules "081234567890").1 (by decide),
   (c6_format_rules "081234567890").2.2⟩

/-- C7 counterexample: the digit-valid input "0812345678" (10 digits, no
domain suffix) is normalized by leading-zero substitution to an 11-digit
canonical digit portion — the input's digit count plus 1, which is neither
plus 0 nor plus 2 as the claim requires. -/
theorem c7_counterexample :
    10 ≤ (cleanDigits "0812345678").length ∧
    (cleanDigits "0812345678").length ≤ 15 ∧
    strIncludes "0812345678" "@c.us" = false ∧
    (formatDigits (cleanDigits "0812345678")).length =
      (cleanDigits "0812345678").length + 1 ∧
    (formatDigits (cleanDigits "0812345678")).length ≠
      (cleanDigits "0812345678").length ∧
    (formatDigits (cleanDigits "0812345678")).length ≠
      (cleanDigits "0812345678").length + 2 := by decide

/-- C7 amended: for every digit-valid input (digit count in [10, 15]) the
canonical digit portion has length equal to the input's digit count plus 0,
plus 1 (leading-zero substitution) or plus 2 (country-prefix prepend), and
the canonical address always ends in the fixed domain suffix. -/
theorem c7_amended_length (raw : String)
    (h10 : 10 ≤ (cleanDigits raw).length)
    (h15 : (cleanDigits raw).length ≤ 15) :
    ((formatDigits (cleanDigits raw)).length = (cleanDigits raw).length ∨
     (formatDigits (cleanDigits raw)).length = (cleanDigits raw).length + 1 ∨
     (formatDigits (cleanDigits raw)).length = (cleanDigits raw).length + 2) ∧
    (formatPhoneNumber raw).toList =
      formatDigits (cleanDigits raw) ++ ['@', 'c', '.', 'u', 's'] :=
  ⟨formatDigits_length (cleanDigits raw), formatPhoneNumber_toList raw⟩

theorem c7_amended_length_witness :
    10 ≤ (cleanDigits "081234567890").length ∧
    (cleanDigits "081234567890").length ≤ 15 ∧
    (((formatDigits (cleanDigits "081234567890")).length =
        (cleanDigits "081234567890").length ∨
      (formatDigits (cleanDigits "081234567890")).length =
        (cleanDigits "081234567890").length + 1 ∨
      (formatDigits (cleanDigits "081234567890")).length =
        (cleanDigits "081234567890").length + 2) ∧
     (formatPhoneNumber "081234567890").toList =
       formatDigits (cleanDigits "081234567890") ++
         ['@', 'c', '.', 'u', 's']) :=
  ⟨by decide, by decide, c7_amended_length "081234567890" (by decide) (by decide)⟩

/-- C8: a raw number whose stripped digit count is below 10 or above 15 is
rejected by POST /send-message with the invalid-number outcome (HTTP 400)
and the transport send is not invoked; in particular "123" is rejected. -/
theorem c8_invalid_number (s : AppState) (n m : String) (t : SendResult)
    (hn : n ≠ "") (hm : m ≠ "")
    (hv : (cleanDigits n).length < 10 ∨ 15 < (cleanDigits n).length) :
    sendMessageHandler s n m t = (.invalidNumber, s, false) ∧
    httpStatus (sendMessageHandler s n m t).1 = 400 := by
  have h1 : ¬(n = "" ∨ m = "") := by simp [hn, hm]
  have h2 : isValidPhoneNumber n = false := by
    simp only [isValidPhoneNumber, decide_eq_false_iff_not]
    omega
  have e : sendMessageHandler s n m t = (.invalidNumber, s, false) := by
    unfold sendMessageHandler
    rw [if_neg h1, if_pos h2]
  exact ⟨e, by rw [e]; rfl⟩

theorem c8_invalid_number_witness :
    sendMessageHandler ⟨true, "CONNECTED"⟩ "123" "hi" (.ok "id") =
      (.invalidNumber, ⟨true, "CONNECTED"⟩, false) ∧
    httpStatus (sendMessageHandler ⟨true, "CONNECTED"⟩ "123" "hi"
      (.ok "id")).1 = 400 :=
  c8_invalid_number ⟨true, "CONNECTED"⟩ "123" "hi" (.ok "id")
    (by decide) (by decide) (Or.inl (by decide))

/-- C9: a raw input that already carries the domain suffix is passed through
unchanged by the chatId computation, and that computation is idempotent on
its own output: normalizing twice equals normalizing once. -/
theorem c9_idempotent (number : String) :
    (strIncludes number "@c.us" = true → toChatId number = number) ∧
    toChatId (toChatId number) = toChatId number := by
  constructor
  · intro h
    rw [toChatId, if_pos h]
  · by_cases h : strIncludes number "@c.us" = true
    · simp [toChatId, h]
    · have e : toChatId number = formatPhoneNumber number := by
        rw [toChatId, if_neg h]
      rw [e, toChatId, if_pos (formatPhoneNumber_includes number)]

theorem c9_idempotent_witness :
    strIncludes "08123456789@c.us" "@c.us" = true ∧
    toChatId "08123456789@c.us" = "08123456789@c.us" :=
  ⟨by decide, (c9_idempotent "08123456789@c.us").1 (by decide)⟩

/-- C10 (implicit): a number parameter containing "@c.us" anywhere, whose
digit count over the whole string lies in [10, 15], is used verbatim as the
dispatch address by POST /send-message — no digit stripping, leading-zero
substitution or country-prefix prepend is applied to it. -/
theorem c10_verbatim_passthrough (s : AppState) (n m mid : String)
    (hn : n ≠ "") (hm : m ≠ "")
    (hsub : strIncludes n "@c.us" = true)
    (hv : isValidPhoneNumber n = true)
    (hready : s.isClientReady = true)
    (hstate : s.clientState = "CONNECTED" ∨ s.clientState = "AUTHENTICATED") :
    sendMessageHandler s n m (.ok mid) = (.sent n mid, s, true) := by
  have ha : ¬(n = "" ∨ m = "") := by simp [hn, hm]
  have hb : ¬(isValidPhoneNumber n = false) := by simp [hv]
  have hc : ¬(s.isClientReady = false ∨
      (s.clientState ≠ "CONNECTED" ∧ s.clientState ≠ "AUTHENTICATED")) := by
    rcases hstate with h | h <;> simp [hready, h]
  unfold sendMessageHandler
  rw [if_neg ha, if_neg hb, if_neg hc]
  simp [toChatId, hsub]

theorem c10_verbatim_passthrough_witness :
    strIncludes "08123456789@c.us" "@c.us" = true ∧
    isValidPhoneNumber "08123456789@c.us" = true ∧
    sendMessageHandler ⟨true, "CONNECTED"⟩ "08123456789@c.us" "hi" (.ok "id") =
      (.sent "08123456789@c.us" "id", ⟨true, "CONNECTED"⟩, true) :=
  ⟨by decide, by decide,
   c10_verbatim_passthrough ⟨true, "CONNECTED"⟩ "08123456789@c.us" "hi" "id"
     (by decide) (by decide) (by decide) (by decide) rfl (Or.inl rfl)⟩
